import Mathlib

/-!
Shallow embedding of the express-lms-api library-management backend.

The store is modelled as lists of rows (books, students, borrows); each
route handler becomes a pure function from the request data and the store
state to an HTTP-style response and the successor state.  SQL statements
are translated literally: a `SELECT ... WHERE id = ?` is a `List.find?` or
`List.filter`, an `UPDATE ... WHERE id = ?` is a `List.map` touching the
matching rows, and `LIMIT l OFFSET o` is `drop`/`take` (with a MySQL
syntax error when a negative literal is spliced in).  Machine numbers are
`Int`; JSON response bodies are association lists of string keys.
-/

namespace LMS

/-- A JSON-ish value appearing in a response body: a string or an array of
strings (the `required` roles list of the auth middleware). -/
inductive JVal where
  | str (s : String)
  | arr (a : List String)
  deriving Repr, DecidableEq

/-- An HTTP response: status code plus JSON object body (key/value list). -/
structure Resp where
  status : Nat
  body : List (String × JVal)
  deriving Repr, DecidableEq

/-- A row of the `books` table (the fields the workflows touch). -/
structure Book where
  id : Nat
  title : String
  quantity : Int
  deriving Repr, DecidableEq

/-- A row of the `students` table. -/
structure Student where
  id : Nat
  full_name : String
  id_card : String
  deriving Repr, DecidableEq

/-- A row of the `borrows` table; `return_date = none` models SQL NULL,
i.e. an active (not yet returned) borrow. -/
structure BorrowRow where
  id : Nat
  student_id : Nat
  book_id : Nat
  created_by : Nat
  borrow_date : Nat
  return_date : Option Nat
  deriving Repr, DecidableEq

/-- A row of the `authors` table. -/
structure Author where
  id : Nat
  full_name : String
  deriving Repr, DecidableEq

/-- The relational store: one list per table.  `nextBorrowId` models the
AUTO_INCREMENT counter of the `borrows` table. -/
structure DB where
  books : List Book
  students : List Student
  borrows : List BorrowRow
  authors : List Author
  nextBorrowId : Nat
  deriving Repr, DecidableEq

/-- `SELECT quantity FROM books WHERE id = ?` — first matching row. -/
def findBook (db : DB) (book_id : Nat) : Option Book :=
  db.books.find? (fun b => b.id == book_id)

/-- `UPDATE books SET quantity = quantity - 1 WHERE id = ?`. -/
def decQuantity (books : List Book) (book_id : Nat) : List Book :=
  books.map (fun b => if b.id == book_id then { b with quantity := b.quantity - 1 } else b)

/-- `UPDATE books SET quantity = quantity + 1 WHERE id = ?`. -/
def incQuantity (books : List Book) (book_id : Nat) : List Book :=
  books.map (fun b => if b.id == book_id then { b with quantity := b.quantity + 1 } else b)

/-- `POST /api/borrows` (src/unnamed/part_001, borrow route): check the
book and its stock, insert a borrow row, decrement the quantity. -/
def borrow (db : DB) (student_id book_id created_by now : Nat) : Resp × DB :=
  match findBook db book_id with
  | none => ({ status := 404, body := [("message", .str "Book not found")] }, db)
  | some book =>
    if book.quantity ≤ 0 then
      ({ status := 400, body := [("message", .str "Book is out of stock")] }, db)
    else
      let row : BorrowRow :=
        { id := db.nextBorrowId, student_id := student_id, book_id := book_id,
          created_by := created_by, borrow_date := now, return_date := none }
      let db1 : DB := { db with borrows := db.borrows ++ [row],
                                nextBorrowId := db.nextBorrowId + 1 }
      let db2 : DB := { db1 with books := decQuantity db1.books book_id }
      ({ status := 200, body := [("message", .str "Book borrowed successfully")] }, db2)

/-- `SELECT * FROM borrows WHERE id = ? AND return_date IS NULL`. -/
def activeRows (db : DB) (id : Nat) : List BorrowRow :=
  db.borrows.filter (fun r => r.id == id && r.return_date == none)

/-- `UPDATE borrows SET return_date = NOW() WHERE id = ?`. -/
def setReturnDate (borrows : List BorrowRow) (id now : Nat) : List BorrowRow :=
  borrows.map (fun r => if r.id == id then { r with return_date := some now } else r)

/-- `PUT /api/borrows/:id/return` (src/unnamed/part_001): look up the
active borrow row, set its return date, increment the book quantity. -/
def returnBook (db : DB) (id now : Nat) : Resp × DB :=
  match activeRows db id with
  | [] => ({ status := 400,
             body := [("message", .str "Borrow record not found or already returned")] }, db)
  | r :: _ =>
    let db1 : DB := { db with borrows := setReturnDate db.borrows id now }
    let db2 : DB := { db1 with books := incQuantity db1.books r.book_id }
    ({ status := 200, body := [("message", .str "Book returned successfully")] }, db2)

/-- A verified token payload: `{id, role}` as signed at login. -/
structure AuthUser where
  id : Nat
  role : String
  deriving Repr, DecidableEq

/-- Outcome of the auth middleware: either an early response or control
passed to the handler with `req.user` set. -/
inductive AuthResult where
  | respond (r : Resp) : AuthResult
  | proceed (user : AuthUser) : AuthResult
  deriving Repr, DecidableEq

/-- JS `String.prototype.split(" ")` on the character list: splits at every
space, keeping empty segments (so `""` gives `[""]` and `"a "` gives
`["a", ""]`), exactly as in JS. -/
def splitChars : List Char → List (List Char)
  | [] => [[]]
  | c :: cs =>
    if c = ' ' then [] :: splitChars cs
    else
      match splitChars cs with
      | [] => [[c]]
      | w :: ws => (c :: w) :: ws

/-- `s.split(" ")` as a list of strings. -/
def splitBySpace (s : String) : List String :=
  (splitChars s.data).map (fun l => String.mk l)

/-- `authHeader.split(" ")[1]`, with the JS falsiness of `!token`: an
absent segment and an empty-string segment both fail the check. -/
def tokenOf (header : String) : Option String :=
  match (splitBySpace header).get? 1 with
  | none => none
  | some t => if t = "" then none else some t

/-- The auth middleware (src/unnamed/part_000).  `jwt.verify` is an
external collaborator, abstracted as a `verify` function from the token
string to either an error message or a decoded `{id, role}` payload.
The JS denial message wraps the role in single quotes; the quotes are
elided here. -/
def authenticate (roles : List String) (verify : String → Except String AuthUser)
    (authHeader : Option String) : AuthResult :=
  match authHeader with
  | none => .respond { status := 401, body := [("message", .str "No Authorization header")] }
  | some h =>
    match tokenOf h with
    | none => .respond { status := 401, body := [("message", .str "No token provided")] }
    | some t =>
      match verify t with
      | .error e =>
          .respond { status := 403, body := [("message", .str "Invalid token"), ("error", .str e)] }
      | .ok user =>
          if roles.length != 0 && !(roles.contains user.role) then
            .respond
              { status := 403,
                body := [("message", .str ("Access denied for role " ++ user.role)),
                         ("required", .arr roles)] }
          else
            .proceed user

/-- `parseInt(q) || d`: the parsed query value (`none` = absent or NaN) with
the JS `||` default, which also replaces a parsed `0` (falsy). -/
def jsOr (v : Option Int) (d : Int) : Int :=
  match v with
  | none => d
  | some n => if n = 0 then d else n

/-- `const page = parseInt(req.query.page) || 1`. -/
def resolvePage (p : Option Int) : Int := jsOr p 1

/-- `const limit = parseInt(req.query.limit) || 10`. -/
def resolveLimit (l : Option Int) : Int := jsOr l 10

/-- `const offset = (page - 1) * limit`. -/
def offsetOf (page limit : Int) : Int := (page - 1) * limit

/-- `Math.ceil(total / limit)` — exact for a nonzero integer `limit`. -/
def totalPagesOf (total limit : Int) : Int := ⌈(total : ℚ) / (limit : ℚ)⌉

/-- Result of a store call: rows, or a driver failure with a message. -/
inductive DbRes (α : Type) where
  | ok (a : α) : DbRes α
  | err (e : String) : DbRes α
  deriving Repr, DecidableEq

/-- `LIMIT l OFFSET o` spliced as literals into the SQL text: a negative
literal is a MySQL syntax error, raised by the driver; otherwise the
window of `l` rows starting at row `o`. -/
def sqlPage {α : Type} (table : List α) (limit offset : Int) : DbRes (List α) :=
  if limit < 0 ∨ offset < 0 then .err "SQL syntax error"
  else .ok ((table.drop offset.toNat).take limit.toNat)

/-- The JSON envelope of a list endpoint. -/
structure ListResp (α : Type) where
  currentPage : Int
  limit : Int
  totalPages : Int
  total : Int
  rows : List α
  deriving Repr, DecidableEq

/-- The shared shape of the list endpoints (students, books, borrows):
resolve `page`/`limit` with defaults, count the table, compute
`totalPages = Math.ceil(total/limit)`, fetch the page with
`LIMIT limit OFFSET (page-1)*limit`.  A driver failure is caught by the
handler and mapped to a 500 (`Except.error` here). -/
def listEndpoint {α : Type} (table : List α) (pageQ limitQ : Option Int) :
    DbRes (ListResp α) :=
  let page := resolvePage pageQ
  let limit := resolveLimit limitQ
  let offset := offsetOf page limit
  let total : Int := table.length
  let totalPages := totalPagesOf total limit
  match sqlPage table limit offset with
  | .err e => .err e
  | .ok rows =>
      .ok { currentPage := page, limit := limit, totalPages := totalPages,
            total := total, rows := rows }

/-- The dashboard summary object (src/routes/dashboard.js): five
independent COUNT queries. -/
structure DashboardResp where
  total_books : Nat
  total_students : Nat
  total_borrows : Nat
  borrowed_not_returned : Nat
  returned : Nat
  deriving Repr, DecidableEq

/-- `GET /api/dashboard`: COUNT(*) over books, students, borrows, and the
borrows split by `return_date IS NULL` / `IS NOT NULL`. -/
def dashboard (db : DB) : DashboardResp :=
  { total_books := db.books.length,
    total_students := db.students.length,
    total_borrows := db.borrows.length,
    borrowed_not_returned := (db.borrows.filter (fun r => r.return_date == none)).length,
    returned := (db.borrows.filter (fun r => !(r.return_date == none))).length }

/-- A JS variable environment (identifier to value) for modelling the
students-list catch block. -/
def lookupVar (env : List (String × String)) (x : String) : Option String :=
  (env.find? (fun p => p.1 == x)).map (fun p => p.2)

/-- Outcome of running a JS handler body: a response was sent, or an
exception escaped the handler uncaught. -/
inductive JsOutcome where
  | response (r : Resp) : JsOutcome
  | uncaught (exn : String) : JsOutcome
  deriving Repr, DecidableEq

/-- The catch block of `GET /api/students` (src/routes/students.js):
`catch (error)` binds the store failure as `error`, but the first
statement is `console.error(err)` — `err` is unbound there, so evaluating
it raises a ReferenceError before `res.status(500).json(...)` runs. -/
def studentsListCatch (e : String) : JsOutcome :=
  let env : List (String × String) := [("error", e)]
  match lookupVar env "err" with
  | none => .uncaught "ReferenceError: err is not defined"
  | some m =>
      let _ := m
      .response { status := 500, body := [("error", .str "Failed to fetch students")] }

/-- The catch block of `PUT /api/borrows/:id/return` (src/unnamed/part_001):
`catch (err)` binds the failure as `err` and sends `{error: err.message}`. -/
def returnRouteCatch (e : String) : JsOutcome :=
  let env : List (String × String) := [("err", e)]
  match lookupVar env "err" with
  | none => .uncaught "ReferenceError: err is not defined"
  | some m => .response { status := 500, body := [("error", .str m)] }

/-- Response of the authors/categories lookup routes: the row list, or an
early error response. -/
inductive LookupResult where
  | ok (authors : List Author) : LookupResult
  | err (r : Resp) : LookupResult
  deriving Repr, DecidableEq

/-- The authors route variant of src/unnamed/part_003:
`router.get("/", async (req, res) => ...)` — no auth middleware in the
chain, so the handler never inspects the Authorization header and always
returns the author list. -/
def authorsRouteUngated (authors : List Author) (_verify : String → Except String AuthUser)
    (_authHeader : Option String) : LookupResult :=
  .ok authors

/-- The authors route of src/routes/authors.js:
`router.get("/", auth(["liberian"]), ...)` — the auth middleware runs
first; the list is returned only when it proceeds. -/
def authorsRouteGated (authors : List Author) (verify : String → Except String AuthUser)
    (authHeader : Option String) : LookupResult :=
  match authenticate ["liberian"] verify authHeader with
  | .respond r => .err r
  | .proceed _ => .ok authors

/-! ### Concrete stores and fixtures used by witness theorems -/

/-- Concrete store for the C1 witness: one book with zero stock. -/
def dbOutOfStock : DB :=
  { books := [{ id := 1, title := "Dune", quantity := 0 }],
    students := [{ id := 4, full_name := "Ann", id_card := "STU9" }],
    borrows := [], authors := [], nextBorrowId := 5 }

/-- Concrete store for the C3 witness: one already-returned borrow row. -/
def dbReturned : DB :=
  { books := [{ id := 1, title := "Dune", quantity := 3 }],
    students := [{ id := 4, full_name := "Ann", id_card := "STU9" }],
    borrows := [{ id := 7, student_id := 4, book_id := 1, created_by := 9,
                  borrow_date := 50, return_date := some 60 }],
    authors := [], nextBorrowId := 8 }

/-- Concrete store for the C2 witness: one book with positive stock. -/
def dbInStock : DB :=
  { books := [{ id := 1, title := "Dune", quantity := 2 }],
    students := [{ id := 4, full_name := "Ann", id_card := "STU9" }],
    borrows := [], authors := [], nextBorrowId := 5 }

/-- An active borrow row whose `book_id` (7) matches no book in
`dbDangling`, for the C10 witness. -/
def rowDangling : BorrowRow :=
  { id := 3, student_id := 4, book_id := 7, created_by := 9,
    borrow_date := 50, return_date := none }

/-- Concrete store for the C10 witness: the borrowed book was deleted. -/
def dbDangling : DB :=
  { books := [{ id := 2, title := "Other", quantity := 1 }],
    students := [{ id := 4, full_name := "Ann", id_card := "STU9" }],
    borrows := [rowDangling], authors := [], nextBorrowId := 4 }

/-- A concrete stand-in for `jwt.verify` used by witnesses: two known
tokens decode to fixed payloads, everything else fails verification. -/
def verifyFixture : String → Except String AuthUser :=
  fun t =>
    if t = "admin-token" then .ok { id := 7, role := "admin" }
    else if t = "lib-token" then .ok { id := 8, role := "liberian" }
    else .error "jwt malformed"

/-- A one-row authors table for the C7 theorem. -/
def authorsFixture : List Author := [{ id := 1, full_name := "Kafka" }]

/-- A three-row table for the C8 witness. -/
def tableFixture : List Int := [10, 20, 30]

/-- The response the C8 witness expects for `page=2, limit=2` over
`tableFixture`. -/
def respFixture : ListResp Int :=
  { currentPage := 2, limit := 2, totalPages := 2, total := 3, rows := [30] }

/-! ### Helper lemmas -/

/-- Incrementing after decrementing the same book id restores the table
row for row (the quantity arithmetic is on `Int`, so no clamping). -/
lemma incQuantity_decQuantity (books : List Book) (k : Nat) :
    incQuantity (decQuantity books k) k = books := by
  unfold incQuantity decQuantity
  rw [List.map_map]
  have h : ∀ b ∈ books,
      ((fun b : Book => if b.id == k then { b with quantity := b.quantity + 1 } else b) ∘
       (fun b : Book => if b.id == k then { b with quantity := b.quantity - 1 } else b)) b
        = id b := by
    intro b _
    by_cases hb : b.id = k
    · simp [Function.comp, ← hb, Int.sub_add_cancel]
    · simp [Function.comp, hb]
  rw [List.map_congr_left h, List.map_id]

/-- The borrow insert plus decrement, spelled out as one record. -/
lemma borrow_in_stock_state (db : DB) (student_id book_id created_by now : Nat)
    (book : Book) (hfind : findBook db book_id = some book)
    (hq : 0 < book.quantity) :
    borrow db student_id book_id created_by now =
      ({ status := 200, body := [("message", .str "Book borrowed successfully")] },
       { db with
           borrows := db.borrows ++
             [{ id := db.nextBorrowId, student_id := student_id, book_id := book_id,
                created_by := created_by, borrow_date := now, return_date := none }],
           nextBorrowId := db.nextBorrowId + 1,
           books := decQuantity db.books book_id }) := by
  simp only [borrow, hfind]
  rw [if_neg (not_le.mpr hq)]

/-! ### C1 -/

/-- C1: a Borrow request for an existing book with `quantity ≤ 0` answers
400 with message "Book is out of stock" and leaves the store untouched:
no borrow row is inserted and no book quantity changes. -/
theorem borrow_out_of_stock (db : DB) (student_id book_id created_by now : Nat)
    (book : Book) (hfind : findBook db book_id = some book)
    (hq : book.quantity ≤ 0) :
    borrow db student_id book_id created_by now =
      ({ status := 400, body := [("message", .str "Book is out of stock")] }, db) := by
  simp only [borrow, hfind]
  rw [if_pos hq]

/-- C1 witness: the theorem applied to a store holding a single book with
zero stock. -/
theorem borrow_out_of_stock_witness :
    (findBook dbOutOfStock 1 = some { id := 1, title := "Dune", quantity := 0 } ∧
      ({ id := 1, title := "Dune", quantity := 0 } : Book).quantity ≤ 0) ∧
    borrow dbOutOfStock 4 1 9 100 =
      ({ status := 400, body := [("message", .str "Book is out of stock")] }, dbOutOfStock) :=
  ⟨⟨by decide, by decide⟩,
   borrow_out_of_stock dbOutOfStock 4 1 9 100
     { id := 1, title := "Dune", quantity := 0 } (by decide) (by decide)⟩

/-! ### C3 -/

/-- C3: when no borrow row with the given id is active (nonexistent id or
already returned), Return answers 400 "Borrow record not found or already
returned" and performs no mutation: the store is returned unchanged. -/
theorem return_not_found (db : DB) (id now : Nat)
    (h : activeRows db id = []) :
    returnBook db id now =
      ({ status := 400,
         body := [("message", .str "Borrow record not found or already returned")] }, db) := by
  unfold returnBook
  rw [h]

/-- C3 witness: returning an already-returned borrow id (7) and a
nonexistent one (99) both 400 without mutating the store. -/
theorem return_not_found_witness :
    (activeRows dbReturned 7 = [] ∧ activeRows dbReturned 99 = []) ∧
    returnBook dbReturned 7 200 =
      ({ status := 400,
         body := [("message", .str "Borrow record not found or already returned")] },
       dbReturned) ∧
    returnBook dbReturned 99 200 =
      ({ status := 400,
         body := [("message", .str "Borrow record not found or already returned")] },
       dbReturned) :=
  ⟨⟨by decide, by decide⟩,
   return_not_found dbReturned 7 200 (by decide),
   return_not_found dbReturned 99 200 (by decide)⟩

/-! ### C2 -/

/-- C2: for a book in stock, Borrow followed by Return on the borrow id
created by that Borrow restores the books table exactly (so the book's
quantity equals its pre-borrow value), answers 200, and leaves the
created borrow row with a non-null `return_date`.  The freshness
hypothesis says the AUTO_INCREMENT id of the new row is unused, which
the store guarantees. -/
theorem borrow_return_round_trip (db : DB) (student_id book_id created_by now1 now2 : Nat)
    (book : Book) (hfind : findBook db book_id = some book) (hq : 0 < book.quantity)
    (hfresh : ∀ r ∈ db.borrows, r.id ≠ db.nextBorrowId) :
    (returnBook (borrow db student_id book_id created_by now1).2 db.nextBorrowId now2).2.books
        = db.books
    ∧ (returnBook (borrow db student_id book_id created_by now1).2 db.nextBorrowId now2).1.status
        = 200
    ∧ ∃ r ∈ (returnBook (borrow db student_id book_id created_by now1).2
              db.nextBorrowId now2).2.borrows,
        r.id = db.nextBorrowId ∧ r.return_date = some now2 := by
  have hb := borrow_in_stock_state db student_id book_id created_by now1 book hfind hq
  have hfilter : db.borrows.filter
      (fun r => r.id == db.nextBorrowId && r.return_date == none) = [] := by
    rw [List.filter_eq_nil_iff]
    intro r hr
    simp [hfresh r hr]
  have hact : activeRows (borrow db student_id book_id created_by now1).2 db.nextBorrowId
      = [{ id := db.nextBorrowId, student_id := student_id, book_id := book_id,
           created_by := created_by, borrow_date := now1, return_date := none }] := by
    rw [hb]
    show (db.borrows ++
      [({ id := db.nextBorrowId, student_id := student_id, book_id := book_id,
          created_by := created_by, borrow_date := now1,
          return_date := none } : BorrowRow)]).filter _ = _
    rw [List.filter_append, hfilter]
    simp
  have hret : returnBook (borrow db student_id book_id created_by now1).2 db.nextBorrowId now2
      = ({ status := 200, body := [("message", .str "Book returned successfully")] },
         { db with
             borrows := setReturnDate
               (db.borrows ++
                 [{ id := db.nextBorrowId, student_id := student_id, book_id := book_id,
                    created_by := created_by, borrow_date := now1, return_date := none }])
               db.nextBorrowId now2,
             nextBorrowId := db.nextBorrowId + 1,
             books := incQuantity (decQuantity db.books book_id) book_id }) := by
    rw [hb] at hact ⊢
    simp only [returnBook, hact]
  rw [hret]
  refine ⟨incQuantity_decQuantity db.books book_id, rfl, ?_⟩
  refine ⟨{ id := db.nextBorrowId, student_id := student_id, book_id := book_id,
            created_by := created_by, borrow_date := now1, return_date := some now2 },
          ?_, rfl, rfl⟩
  show _ ∈ setReturnDate _ _ _
  unfold setReturnDate
  rw [List.map_append]
  apply List.mem_append_right
  simp

/-- C2 witness: the theorem applied to a store holding one in-stock book
and no borrow rows. -/
theorem borrow_return_round_trip_witness :
    (findBook dbInStock 1 = some { id := 1, title := "Dune", quantity := 2 } ∧
      (0:Int) < 2 ∧ ∀ r ∈ dbInStock.borrows, r.id ≠ dbInStock.nextBorrowId) ∧
    ((returnBook (borrow dbInStock 4 1 9 100).2 dbInStock.nextBorrowId 200).2.books
        = dbInStock.books
     ∧ (returnBook (borrow dbInStock 4 1 9 100).2 dbInStock.nextBorrowId 200).1.status = 200
     ∧ ∃ r ∈ (returnBook (borrow dbInStock 4 1 9 100).2 dbInStock.nextBorrowId 200).2.borrows,
         r.id = dbInStock.nextBorrowId ∧ r.return_date = some 200) :=
  ⟨⟨by decide, by decide, by decide⟩,
   borrow_return_round_trip dbInStock 4 1 9 100 200
     { id := 1, title := "Dune", quantity := 2 } (by decide) (by decide) (by decide)⟩

/-! ### C10 -/

/-- C10: returning an active borrow row whose `book_id` matches no book
still answers 200 "Book returned successfully" and sets the row's
`return_date`, while the quantity UPDATE matches zero rows, so the books
table is unchanged and no stock is restored. -/
theorem return_deleted_book (db : DB) (borrow_id now : Nat) (r : BorrowRow)
    (rest : List BorrowRow)
    (hact : activeRows db borrow_id = r :: rest)
    (hnb : ∀ b ∈ db.books, b.id ≠ r.book_id) :
    (returnBook db borrow_id now).1 =
      { status := 200, body := [("message", .str "Book returned successfully")] }
    ∧ (returnBook db borrow_id now).2.books = db.books
    ∧ ∃ w ∈ (returnBook db borrow_id now).2.borrows,
        w.id = borrow_id ∧ w.return_date = some now := by
  have hr : r ∈ activeRows db borrow_id := by
    rw [hact]
    exact List.mem_cons_self _ _
  have hid : r.id = borrow_id := by
    unfold activeRows at hr
    rw [List.mem_filter] at hr
    have h2 := hr.2
    simp only [Bool.and_eq_true, beq_iff_eq] at h2
    exact h2.1
  have hmem : r ∈ db.borrows := List.mem_of_mem_filter hr
  have hret : returnBook db borrow_id now =
      ({ status := 200, body := [("message", .str "Book returned successfully")] },
       { db with borrows := setReturnDate db.borrows borrow_id now,
                 books := incQuantity db.books r.book_id }) := by
    simp only [returnBook, hact]
  rw [hret]
  refine ⟨rfl, ?_, ?_⟩
  · show incQuantity db.books r.book_id = db.books
    unfold incQuantity
    have h : ∀ b ∈ db.books,
        (if b.id == r.book_id then { b with quantity := b.quantity + 1 } else b) = id b := by
      intro b hb
      simp [hnb b hb]
    rw [List.map_congr_left h, List.map_id]
  · refine ⟨{ r with return_date := some now }, ?_, hid, rfl⟩
    show _ ∈ setReturnDate db.borrows borrow_id now
    unfold setReturnDate
    have heq : { r with return_date := some now } =
        (fun x : BorrowRow =>
          if x.id == borrow_id then { x with return_date := some now } else x) r := by
      simp [hid]
    rw [heq]
    exact List.mem_map_of_mem _ hmem

/-- C10 witness: the theorem applied to a store whose single active
borrow row references book id 7, while the books table only holds book
id 2. -/
theorem return_deleted_book_witness :
    (activeRows dbDangling 3 = [rowDangling] ∧
      ∀ b ∈ dbDangling.books, b.id ≠ rowDangling.book_id) ∧
    ((returnBook dbDangling 3 200).1 =
       { status := 200, body := [("message", .str "Book returned successfully")] }
     ∧ (returnBook dbDangling 3 200).2.books = dbDangling.books
     ∧ ∃ w ∈ (returnBook dbDangling 3 200).2.borrows,
         w.id = 3 ∧ w.return_date = some 200) :=
  ⟨⟨by decide, by decide⟩,
   return_deleted_book dbDangling 3 200 rowDangling [] (by decide) (by decide)⟩

/-! ### C9 -/

/-- A filter and its boolean complement partition a list's length. -/
lemma length_filter_partition {α : Type} (p : α → Bool) (l : List α) :
    l.length = (l.filter p).length + (l.filter (fun a => !(p a))).length := by
  induction l with
  | nil => rfl
  | cons a l ih =>
    cases h : p a <;> simp [List.filter_cons, h, ih] <;> omega

/-- C9: in every store state the dashboard counts satisfy
`total_borrows = borrowed_not_returned + returned`: the two filters on
`return_date IS NULL` / `IS NOT NULL` partition the borrows table. -/
theorem dashboard_counts_partition (db : DB) :
    (dashboard db).total_borrows =
      (dashboard db).borrowed_not_returned + (dashboard db).returned := by
  show db.borrows.length =
    (db.borrows.filter (fun r => r.return_date == none)).length +
      (db.borrows.filter (fun r => !(r.return_date == none))).length
  exact length_filter_partition (fun r : BorrowRow => r.return_date == none) db.borrows

/-! ### C4 -/

/-- C4: the auth middleware by cases — missing header gives 401; a header
without a token segment gives 401; a token failing verification gives 403
with the error detail; a verified token whose role is outside a non-empty
required set gives 403 naming the role and the set; otherwise the decoded
identity proceeds into the handler. -/
theorem auth_middleware_cases (roles : List String)
    (verify : String → Except String AuthUser) :
    (authenticate roles verify none =
      .respond { status := 401, body := [("message", .str "No Authorization header")] })
    ∧ (∀ h, tokenOf h = none →
        authenticate roles verify (some h) =
          .respond { status := 401, body := [("message", .str "No token provided")] })
    ∧ (∀ h t e, tokenOf h = some t → verify t = .error e →
        authenticate roles verify (some h) =
          .respond { status := 403,
                     body := [("message", .str "Invalid token"), ("error", .str e)] })
    ∧ (∀ h t u, tokenOf h = some t → verify t = .ok u → roles ≠ [] → u.role ∉ roles →
        authenticate roles verify (some h) =
          .respond { status := 403,
                     body := [("message", .str ("Access denied for role " ++ u.role)),
                              ("required", .arr roles)] })
    ∧ (∀ h t u, tokenOf h = some t → verify t = .ok u → (roles = [] ∨ u.role ∈ roles) →
        authenticate roles verify (some h) = .proceed u) := by
  refine ⟨rfl, ?_, ?_, ?_, ?_⟩
  · intro h hh
    simp only [authenticate, hh]
  · intro h t e hh hv
    simp only [authenticate, hh, hv]
  · intro h t u hh hv hroles hrole
    have hc : (roles.length != 0 && !(roles.contains u.role)) = true := by
      simp only [Bool.and_eq_true, bne_iff_ne, ne_eq, Bool.not_eq_true]
      refine ⟨fun hlen => hroles (List.length_eq_zero.mp hlen), ?_⟩
      simpa [List.elem_iff] using hrole
    simp only [authenticate, hh, hv, hc, if_true]
  · intro h t u hh hv hok
    have hc : (roles.length != 0 && !(roles.contains u.role)) = false := by
      rcases hok with hnil | hmem
      · subst hnil
        rfl
      · simp [List.elem_iff, hmem]
    simp [authenticate, hh, hv, hc]
    exact fun hne => hok.resolve_left hne

/-- C4 witness: each of the five cases applied at concrete inputs with
the fixture verifier and required set `["liberian"]`. -/
theorem auth_middleware_cases_witness :
    (tokenOf "Bearer" = none ∧
     tokenOf "Bearer bad" = some "bad" ∧
     verifyFixture "bad" = .error "jwt malformed" ∧
     tokenOf "Bearer admin-token" = some "admin-token" ∧
     verifyFixture "admin-token" = .ok { id := 7, role := "admin" } ∧
     (["liberian"] : List String) ≠ [] ∧
     "admin" ∉ (["liberian"] : List String) ∧
     tokenOf "Bearer lib-token" = some "lib-token" ∧
     verifyFixture "lib-token" = .ok { id := 8, role := "liberian" } ∧
     "liberian" ∈ (["liberian"] : List String)) ∧
    (authenticate ["liberian"] verifyFixture none =
       .respond { status := 401, body := [("message", .str "No Authorization header")] }
     ∧ authenticate ["liberian"] verifyFixture (some "Bearer") =
       .respond { status := 401, body := [("message", .str "No token provided")] }
     ∧ authenticate ["liberian"] verifyFixture (some "Bearer bad") =
       .respond { status := 403,
                  body := [("message", .str "Invalid token"),
                           ("error", .str "jwt malformed")] }
     ∧ authenticate ["liberian"] verifyFixture (some "Bearer admin-token") =
       .respond { status := 403,
                  body := [("message", .str "Access denied for role admin"),
                           ("required", .arr ["liberian"])] }
     ∧ authenticate ["liberian"] verifyFixture (some "Bearer lib-token") =
       .proceed { id := 8, role := "liberian" }) := by
  refine ⟨⟨by decide, by decide, by rfl, by decide, by rfl, by decide, by decide,
           by decide, by rfl, by decide⟩, ?_, ?_, ?_, ?_, ?_⟩
  · exact (auth_middleware_cases ["liberian"] verifyFixture).1
  · exact (auth_middleware_cases ["liberian"] verifyFixture).2.1 "Bearer" (by decide)
  · exact (auth_middleware_cases ["liberian"] verifyFixture).2.2.1
      "Bearer bad" "bad" "jwt malformed" (by decide) (by rfl)
  · exact (auth_middleware_cases ["liberian"] verifyFixture).2.2.2.1
      "Bearer admin-token" "admin-token" { id := 7, role := "admin" }
      (by decide) (by rfl) (by decide) (by decide)
  · exact (auth_middleware_cases ["liberian"] verifyFixture).2.2.2.2
      "Bearer lib-token" "lib-token" { id := 8, role := "liberian" }
      (by decide) (by rfl) (Or.inr (by decide))

/-! ### C5 -/

/-- C5 (bug): a store failure in the students list endpoint never turns
into a JSON error response — the catch block evaluates the unbound `err`
and raises a ReferenceError instead — while the return route's catch
block does shape the failure as `{error: message}` with status 500. -/
theorem students_list_catch_unshaped :
    (∀ e : String, studentsListCatch e = .uncaught "ReferenceError: err is not defined")
    ∧ (∀ e : String, returnRouteCatch e =
        .response { status := 500, body := [("error", .str e)] }) :=
  ⟨fun _ => rfl, fun _ => rfl⟩

/-! ### C6 -/

/-- C6 counterexample: a supplied `page=0` (with `limit=10`) is not passed
through arithmetically — `parseInt(page) || 1` replaces the falsy `0` by
the default `1`, so the computed offset is `0`, not `(0-1)*10 = -10`. -/
theorem pagination_zero_replaced :
    offsetOf (resolvePage (some 0)) (resolveLimit (some 10)) ≠ ((0:Int) - 1) * 10 := by
  decide

/-- C6 (amended): strictly negative `page`/`limit` are indeed passed
through unvalidated into `offset = (page-1)*limit` and
`totalPages = ceil(total/limit)`, but a supplied `0` for either parameter
is replaced by its default (1 resp. 10), because `parseInt(x) || d`
treats `0` as falsy. -/
theorem pagination_negative_passthrough (p l total : Int) (hp : p < 0) (hl : l < 0) :
    resolvePage (some p) = p ∧ resolveLimit (some l) = l ∧
    offsetOf (resolvePage (some p)) (resolveLimit (some l)) = (p - 1) * l ∧
    totalPagesOf total (resolveLimit (some l)) = ⌈(total : ℚ) / (l : ℚ)⌉ ∧
    resolvePage (some 0) = 1 ∧ resolveLimit (some 0) = 10 := by
  have hp0 : p ≠ 0 := hp.ne
  have hl0 : l ≠ 0 := hl.ne
  refine ⟨?_, ?_, ?_, ?_, rfl, rfl⟩
  · simp [resolvePage, jsOr, hp0]
  · simp [resolveLimit, jsOr, hl0]
  · simp [resolvePage, resolveLimit, jsOr, hp0, hl0, offsetOf]
  · simp [resolveLimit, jsOr, hl0, totalPagesOf]

/-- C6 witness: the amended statement at `page=-2`, `limit=-3`,
`total=7`. -/
theorem pagination_negative_passthrough_witness :
    ((-2:Int) < 0 ∧ (-3:Int) < 0) ∧
    (resolvePage (some (-2)) = -2 ∧ resolveLimit (some (-3)) = -3 ∧
     offsetOf (resolvePage (some (-2))) (resolveLimit (some (-3))) = ((-2:Int) - 1) * (-3) ∧
     totalPagesOf 7 (resolveLimit (some (-3))) = ⌈((7:Int) : ℚ) / (((-3):Int) : ℚ)⌉ ∧
     resolvePage (some 0) = 1 ∧ resolveLimit (some 0) = 10) :=
  ⟨⟨by decide, by decide⟩,
   pagination_negative_passthrough (-2) (-3) 7 (by decide) (by decide)⟩

/-! ### C7 -/

/-- C7 (bug): at the failing input — a GET with no Authorization header —
the authors route variant of src/unnamed/part_003 (whose own swagger
annotation demands bearer auth) returns the full author list with 200,
while the gated variant of src/routes/authors.js answers 401. -/
theorem authors_route_gating_mismatch :
    authorsRouteUngated authorsFixture verifyFixture none = .ok authorsFixture
    ∧ authorsRouteGated authorsFixture verifyFixture none =
        .err { status := 401, body := [("message", .str "No Authorization header")] } :=
  ⟨rfl, rfl⟩

/-! ### C8 -/

/-- C8: whenever a list endpoint answers 200, the response reports
`total` = row count of the table, `page`/`limit` resolved with defaults 1
and 10, `totalPages = ceil(total/limit)`, and the returned rows are the
window of the table starting at offset `(page-1)*limit` with at most
`limit` rows. -/
theorem list_endpoint_pagination {α : Type} (table : List α) (pageQ limitQ : Option Int)
    (resp : ListResp α)
    (h : listEndpoint table pageQ limitQ = .ok resp) :
    resolvePage none = 1 ∧ resolveLimit none = 10 ∧
    resp.currentPage = resolvePage pageQ ∧
    resp.limit = resolveLimit limitQ ∧
    resp.total = table.length ∧
    resp.totalPages = ⌈(table.length : ℚ) / (resp.limit : ℚ)⌉ ∧
    resp.rows =
      (table.drop (offsetOf resp.currentPage resp.limit).toNat).take resp.limit.toNat ∧
    resp.rows.length ≤ resp.limit.toNat := by
  simp only [listEndpoint, sqlPage] at h
  by_cases hc : resolveLimit limitQ < 0 ∨ offsetOf (resolvePage pageQ) (resolveLimit limitQ) < 0
  · rw [if_pos hc] at h
    cases h
  · rw [if_neg hc] at h
    rw [DbRes.ok.injEq] at h
    subst h
    refine ⟨rfl, rfl, rfl, rfl, rfl, ?_, rfl, ?_⟩
    · show totalPagesOf (table.length : Int) (resolveLimit limitQ) = _
      rw [totalPagesOf]
      norm_cast
    · exact List.length_take_le _ _

/-- C8 witness: `page=2, limit=2` over a three-row table returns the
third row alone, with `totalPages = ceil(3/2) = 2`. -/
theorem list_endpoint_pagination_witness :
    (listEndpoint tableFixture (some 2) (some 2) = .ok respFixture) ∧
    (resolvePage none = 1 ∧ resolveLimit none = 10 ∧
     respFixture.currentPage = resolvePage (some 2) ∧
     respFixture.limit = resolveLimit (some 2) ∧
     respFixture.total = tableFixture.length ∧
     respFixture.totalPages = ⌈(tableFixture.length : ℚ) / (respFixture.limit : ℚ)⌉ ∧
     respFixture.rows =
       (tableFixture.drop
         (offsetOf respFixture.currentPage respFixture.limit).toNat).take
         respFixture.limit.toNat ∧
     respFixture.rows.length ≤ respFixture.limit.toNat) := by
  have hceil : totalPagesOf (3 : Int) 2 = 2 := by
    rw [totalPagesOf, Int.ceil_eq_iff]
    norm_num
  have h : listEndpoint tableFixture (some 2) (some 2) = .ok respFixture := by
    simp [listEndpoint, sqlPage, resolvePage, resolveLimit, jsOr, offsetOf,
          tableFixture, respFixture, hceil]
  exact ⟨h, list_endpoint_pagination tableFixture (some 2) (some 2) respFixture h⟩

end LMS
